import Mathlib

/-
Verification of `skills/openapi-validator/scripts/validate_openapi.py`.

The script is embedded shallowly:
- `JValue` is the parsed document tree (Python dicts become association
  lists that keep key order, since the script iterates dicts in insertion
  order and warning order is observable).
- Dynamic attribute errors (calling `.get` on `None`, `.startswith` on a
  non-string, ...) are modelled with `Except String`: an `.error` is a
  Python exception escaping the function, carrying the exception text.
- The external collaborators (file system, YAML/JSON parsers, the
  `openapi_spec_validator` package) are inputs: their observable outcomes
  are passed as explicit arguments to `load_spec`, `validate_schema` and
  `runMain`.
-/

/-- A parsed YAML/JSON document tree: the Python values the script walks. -/
inductive JValue where
  | null
  | bool (b : Bool)
  | num (n : Int)
  | str (s : String)
  | arr (elems : List JValue)
  | obj (fields : List (String × JValue))

/-- Python truthiness of a document value, as used by `if x:` in the script. -/
def truthy : JValue → Bool
  | .null => false
  | .bool b => b
  | .num n => n != 0
  | .str s => s != ""
  | .arr elems => !elems.isEmpty
  | .obj fields => !fields.isEmpty

/-- Python type name of a value, used in AttributeError messages. -/
def pyTypeName : JValue → String
  | .null => "NoneType"
  | .bool _ => "bool"
  | .num _ => "int"
  | .str _ => "str"
  | .arr _ => "list"
  | .obj _ => "dict"

/-- Text of the AttributeError Python raises when `v.attr` does not exist. -/
def attrError (v : JValue) (attr : String) : String :=
  "'" ++ pyTypeName v ++ "' object has no attribute '" ++ attr ++ "'"

/-- First binding of a key in an association list: Python dict lookup
(dict keys are unique in Python, so first-match is exact). -/
def lookupStr (k : String) : List (String × JValue) → Option JValue
  | [] => none
  | (k2, v) :: rest => if k = k2 then some v else lookupStr k rest

/-- Python `v.get(key, dflt)`: succeeds only on dicts, raising
AttributeError on every other receiver (including `None`). -/
def pyGetD (v : JValue) (key : String) (dflt : JValue) : Except String JValue :=
  match v with
  | .obj fields => .ok ((lookupStr key fields).getD dflt)
  | w => .error (attrError w "get")

/-- Character-list test that `pre` begins `s`, written out structurally so
that closed instances reduce in the kernel. -/
def listStarts : List Char → List Char → Bool
  | [], _ => true
  | _ :: _, [] => false
  | c :: cs, d :: ds => c == d && listStarts cs ds

/-- Python `s.startswith(pre)` for actual strings. -/
def strStarts (s pre : String) : Bool := listStarts pre.data s.data

/-- Python `v.startswith(pre)`: AttributeError unless `v` is a string. -/
def pyStartswith (v : JValue) (pre : String) : Except String Bool :=
  match v with
  | .str s => .ok (strStarts s pre)
  | w => .error (attrError w "startswith")

/-- Python `method.upper()` on ASCII method names. -/
def strUpper (s : String) : String := ⟨s.data.map Char.toUpper⟩

/-- Python `str.strip()`: drop whitespace from both ends. -/
def pyStrip (s : String) : String :=
  ⟨((s.data.dropWhile Char.isWhitespace).reverse.dropWhile Char.isWhitespace).reverse⟩

/-- Python `str(v)` as interpolated into the version warning f-string; in
`lint_spec` it is only ever applied to values that passed `startswith`,
hence to strings, so the container branches are unreachable there. -/
def pyStr : JValue → String
  | .null => "None"
  | .bool true => "True"
  | .bool false => "False"
  | .num n => toString n
  | .str s => s
  | .arr _ => "[...]"
  | .obj _ => "\x7b...\x7d"

/-- Version rule of `lint_spec` (lines 80-85): missing or falsy `openapi`
warns, otherwise a value not starting with "3." warns with the value. -/
def lintVersion (spec : JValue) : Except String (List String) :=
  match pyGetD spec "openapi" (.str "") with
  | .error e => .error e
  | .ok openapi_version =>
    if !truthy openapi_version then
      .ok ["LINT: Missing 'openapi' version field"]
    else
      match pyStartswith openapi_version "3." with
      | .error e => .error e
      | .ok sw =>
        if !sw then
          .ok ["LINT: OpenAPI version '" ++ pyStr openapi_version ++ "' is not 3.x"]
        else
          .ok []

/-- Info rule of `lint_spec` (lines 87-97): falsy `info` gives one warning
and skips the sub-checks; otherwise each missing sub-field warns. -/
def lintInfo (spec : JValue) : Except String (List String) :=
  match pyGetD spec "info" (.obj []) with
  | .error e => .error e
  | .ok info =>
    if !truthy info then
      .ok ["LINT: Missing 'info' section"]
    else
      match pyGetD info "title" .null with
      | .error e => .error e
      | .ok t =>
        let w1 := if !truthy t then ["LINT: Missing 'info.title'"] else []
        match pyGetD info "version" .null with
        | .error e => .error e
        | .ok v =>
          let w2 := if !truthy v then ["LINT: Missing 'info.version'"] else []
          match pyGetD info "description" .null with
          | .error e => .error e
          | .ok d =>
            let w3 := if !truthy d then ["LINT: Missing 'info.description' (recommended)"] else []
            .ok (w1 ++ w2 ++ w3)

/-- Response-description loop of `lint_spec` (lines 137-139): a truthy
response that lacks a truthy `description` warns; a falsy response (null,
or the empty mapping) is skipped entirely. -/
def responseWarnings (op_id : String) : List (String × JValue) → Except String (List String)
  | [] => .ok []
  | (code, response) :: rest =>
    match ((if truthy response then
              match pyGetD response "description" .null with
              | .error e => .error e
              | .ok d =>
                .ok (if !truthy d then
                       ["LINT: " ++ op_id ++ " response '" ++ code ++ "' missing description"]
                     else [])
            else .ok []) : Except String (List String)) with
    | .error e => .error e
    | .ok here =>
      match responseWarnings op_id rest with
      | .error e => .error e
      | .ok rest' => .ok (here ++ rest')

/-- Responses block of an operation (lines 126-139): falsy `responses`
warns once; otherwise the success-code check runs, then the per-response
description loop. -/
def lintResponses (op_id : String) (operation : JValue) : Except String (List String) :=
  match pyGetD operation "responses" (.obj []) with
  | .error e => .error e
  | .ok responses =>
    if !truthy responses then
      .ok ["LINT: " ++ op_id ++ " has no responses defined"]
    else
      match responses with
      | .obj rfs =>
        let has_success := rfs.any (fun p => strStarts p.1 "2")
        let w1 := if !has_success && !(rfs.any (fun p => p.1 = "default")) then
                    ["LINT: " ++ op_id ++ " has no success (2xx) response"]
                  else []
        match responseWarnings op_id rfs with
        | .error e => .error e
        | .ok w2 => .ok (w1 ++ w2)
      | v => .error (attrError v "keys")

/-- Per-operation checks (lines 116-139): operationId, summary/description,
then the responses block. -/
def lintOperation (op_id : String) (operation : JValue) : Except String (List String) :=
  match pyGetD operation "operationId" .null with
  | .error e => .error e
  | .ok opId =>
    let w1 := if !truthy opId then ["LINT: " ++ op_id ++ " missing 'operationId'"] else []
    match pyGetD operation "summary" .null with
    | .error e => .error e
    | .ok s =>
      match pyGetD operation "description" .null with
      | .error e => .error e
      | .ok d =>
        let w2 := if !truthy s && !truthy d then
                    ["LINT: " ++ op_id ++ " missing 'summary' or 'description'"]
                  else []
        match lintResponses op_id operation with
        | .error e => .error e
        | .ok w3 => .ok (w1 ++ w2 ++ w3)

/-- The hardcoded canonical method order of line 113. -/
def methodList : List String :=
  ["get", "post", "put", "patch", "delete", "head", "options"]

/-- Method loop of a path item (lines 113-139): each method key whose value
is truthy is linted as an operation; falsy values (absent, null, or the
empty mapping) are skipped. -/
def methodWarnings (path : String) (path_item : JValue) : List String → Except String (List String)
  | [] => .ok []
  | method :: rest =>
    match pyGetD path_item method .null with
    | .error e => .error e
    | .ok operation =>
      match (if truthy operation then
               lintOperation (strUpper method ++ " " ++ path) operation
             else .ok []) with
      | .error e => .error e
      | .ok here =>
        match methodWarnings path path_item rest with
        | .error e => .error e
        | .ok rest' => .ok (here ++ rest')

/-- Operation checks of one path (lines 109-139): a null path item skips
them (`continue`); anything else enters the method loop. -/
def pathItemWarnings (path : String) (path_item : JValue) : Except String (List String) :=
  match path_item with
  | .null => .ok []
  | _ => methodWarnings path path_item methodList

/-- Per-path loop (lines 104-139): the path-naming check always runs, then
the path item's operation checks. -/
def pathWarnings : List (String × JValue) → Except String (List String)
  | [] => .ok []
  | (path, path_item) :: rest =>
    match pathItemWarnings path path_item with
    | .error e => .error e
    | .ok w2 =>
      match pathWarnings rest with
      | .error e => .error e
      | .ok rest' =>
        .ok ((if !strStarts path "/" then
                ["LINT: Path '" ++ path ++ "' should start with '/'"]
              else []) ++ w2 ++ rest')

/-- Paths rule of `lint_spec` (lines 99-139): falsy `paths` warns once and
skips every per-path check. -/
def lintPaths (spec : JValue) : Except String (List String) :=
  match pyGetD spec "paths" (.obj []) with
  | .error e => .error e
  | .ok paths =>
    if !truthy paths then
      .ok ["LINT: No paths defined"]
    else
      match paths with
      | .obj pfs => pathWarnings pfs
      | v => .error (attrError v "items")

/-- Schemas loop of `lint_spec` (lines 144-150): each truthy schema is
checked for `description` and for one of the five type-defining keys. -/
def schemaWarnings : List (String × JValue) → Except String (List String)
  | [] => .ok []
  | (schema_name, schema) :: rest =>
    match ((if truthy schema then
              match pyGetD schema "description" .null with
              | .error e => .error e
              | .ok d =>
                .ok (if !truthy d then
                       ["LINT: Schema '" ++ schema_name ++ "' missing description (recommended)"]
                     else [])
            else .ok []) : Except String (List String)) with
    | .error e => .error e
    | .ok w1 =>
      match ((if truthy schema then
                match pyGetD schema "type" .null with
                | .error e => .error e
                | .ok t =>
                  match pyGetD schema "$ref" .null with
                  | .error e => .error e
                  | .ok r =>
                    match pyGetD schema "allOf" .null with
                    | .error e => .error e
                    | .ok alv =>
                      match pyGetD schema "oneOf" .null with
                      | .error e => .error e
                      | .ok onv =>
                        match pyGetD schema "anyOf" .null with
                        | .error e => .error e
                        | .ok anv =>
                          .ok (if !truthy t && !truthy r && !truthy alv && !truthy onv && !truthy anv then
                                 ["LINT: Schema '" ++ schema_name ++ "' has no type definition"]
                               else [])
              else .ok []) : Except String (List String)) with
      | .error e => .error e
      | .ok w2 =>
        match schemaWarnings rest with
        | .error e => .error e
        | .ok rest' => .ok (w1 ++ w2 ++ rest')

/-- The whole `lint_spec` (lines 76-163): the six rule blocks in source
order, an exception anywhere aborting the run and discarding the warnings
accumulated so far (the Python list dies with the frame). -/
def lint_spec (spec : JValue) : Except String (List String) :=
  match lintVersion spec with
  | .error e => .error e
  | .ok w1 =>
    match lintInfo spec with
    | .error e => .error e
    | .ok w2 =>
      match lintPaths spec with
      | .error e => .error e
      | .ok w3 =>
        match pyGetD spec "components" (.obj []) with
        | .error e => .error e
        | .ok components =>
          match pyGetD components "schemas" (.obj []) with
          | .error e => .error e
          | .ok schemas =>
            match (match schemas with
                   | .obj sfs => schemaWarnings sfs
                   | v => Except.error (attrError v "items")) with
            | .error e => .error e
            | .ok w4 =>
              match pyGetD spec "security" (.arr []) with
              | .error e => .error e
              | .ok security =>
                match pyGetD components "securitySchemes" (.obj []) with
                | .error e => .error e
                | .ok security_schemes =>
                  let w5 := if truthy security && !truthy security_schemes then
                              ["LINT: Security requirements defined but no securitySchemes in components"]
                            else []
                  match pyGetD spec "servers" (.arr []) with
                  | .error e => .error e
                  | .ok servers =>
                    let w6 := if !truthy servers then
                                ["LINT: No servers defined (recommended for clarity)"]
                              else []
                    .ok (w1 ++ w2 ++ w3 ++ w4 ++ w5 ++ w6)

/-- Observable outcome of the call to the external
`openapi_spec_validator.validate` capability on the given file. -/
inductive ValidateOutcome where
  | ok
  | validationError (message : String)
  | otherException (message : String)

/-- The `validate_schema` function (lines 56-73), with the availability of
the external package and the outcome of its `validate` call as inputs. -/
def validate_schema (validatorAvailable : Bool) (outcome : ValidateOutcome) : List String :=
  if !validatorAvailable then
    ["ERROR: openapi-spec-validator not installed. Install with: pip install openapi-spec-validator"]
  else
    match outcome with
    | .ok => []
    | .validationError msg => ["SCHEMA ERROR: " ++ msg]
    | .otherException msg =>
      let error_msg := pyStrip msg
      if error_msg != "" then ["ERROR: " ++ error_msg] else []

/-- Failures `load_spec` can raise (lines 31-53): the missing-file error,
the PyYAML ImportError, a strict-mode YAML parse error, a JSON parse
error. All carry the Python exception text. -/
inductive LoadError where
  | fileNotFound (msg : String)
  | importError (msg : String)
  | yamlError (msg : String)
  | jsonError (msg : String)
deriving DecidableEq

/-- Python `str(e)` of a load failure, as formatted by `main`. -/
def LoadError.message : LoadError → String
  | .fileNotFound m => m
  | .importError m => m
  | .yamlError m => m
  | .jsonError m => m

/-- The `load_spec` function (lines 31-53). The file system and the two
parsers are external: `fileExists`, `yamlAvailable` and the two parse
outcomes (`yamlResult` from `yaml.safe_load`, failing only with
`yaml.YAMLError`; `jsonResult` from `json.loads`) are inputs. -/
def load_spec (file_path : String) (suffix : String) (fileExists : Bool)
    (yamlAvailable : Bool) (yamlResult : Except String JValue)
    (jsonResult : Except String JValue) : Except LoadError JValue :=
  if !fileExists then
    .error (.fileNotFound ("File not found: " ++ file_path))
  else if suffix = ".yaml" || suffix = ".yml" then
    if !yamlAvailable then
      .error (.importError "PyYAML is required for YAML files. Install with: pip install pyyaml")
    else
      match yamlResult with
      | .ok v => .ok v
      | .error e => .error (.yamlError e)
  else if suffix = ".json" then
    match jsonResult with
    | .ok v => .ok v
    | .error e => .error (.jsonError e)
  else
    if yamlAvailable then
      match yamlResult with
      | .ok v => .ok v
      | .error _ =>
        match jsonResult with
        | .ok v => .ok v
        | .error e => .error (.jsonError e)
    else
      match jsonResult with
      | .ok v => .ok v
      | .error e => .error (.jsonError e)

/-- The CLI flags `main` reads (line 167-173). -/
structure Args where
  spec_file : String
  lint_only : Bool
  schema_only : Bool
deriving DecidableEq

/-- The `results` record `main` builds and prints (lines 175-180). -/
structure Report where
  file : String
  valid : Bool
  schema_errors : List String
  lint_warnings : List String
deriving DecidableEq

/-- The `main` control flow (lines 175-231) up to the exit code: phase
selection, the two except clauses, and `sys.exit(0 if valid else 1)`.
The result of `load_spec` and the conformance-capability behaviour are
inputs; presentation (printing) is elided. -/
def runMain (args : Args) (loadResult : Except LoadError JValue)
    (validatorAvailable : Bool) (outcome : ValidateOutcome) : Report × Nat :=
  let init : Report :=
    { file := args.spec_file, valid := true, schema_errors := [], lint_warnings := [] }
  let results : Report :=
    match loadResult with
    | .error (.fileNotFound msg) =>
      { init with valid := false, schema_errors := [msg] }
    | .error e =>
      { init with valid := false, schema_errors := ["Failed to parse spec: " ++ e.message] }
    | .ok spec =>
      let afterSchema :=
        if !args.lint_only then
          let se := validate_schema validatorAvailable outcome
          if se = [] then { init with schema_errors := se }
          else { init with schema_errors := se, valid := false }
        else init
      if !args.schema_only then
        match lint_spec spec with
        | .ok ws => { afterSchema with lint_warnings := ws }
        | .error emsg =>
          { afterSchema with
            valid := false
            schema_errors := ["Failed to parse spec: " ++ emsg] }
      else afterSchema
  (results, if results.valid then 0 else 1)

deriving instance DecidableEq for Except

/-- Scenario B document of the spec:
`paths: {"/x": {"get": {"responses": {"200": {}}}}}` and nothing else. -/
def scenarioB : JValue :=
  .obj [("paths", .obj [("/x", .obj [("get", .obj [("responses", .obj [("200", .obj [])])])])])]

/-- The warnings the script emits on Scenario B. -/
def scenarioBWarnings : List String :=
  ["LINT: Missing 'openapi' version field",
   "LINT: Missing 'info' section",
   "LINT: GET /x missing 'operationId'",
   "LINT: GET /x missing 'summary' or 'description'",
   "LINT: No servers defined (recommended for clarity)"]

/-- Value is a Python string. -/
def isStringVal : JValue → Bool
  | .str _ => true
  | _ => false

/-- Value is a Python dict. -/
def isObjVal : JValue → Bool
  | .obj _ => true
  | _ => false

/-- Value is null or a dict: the two shapes a response or schema entry may
take without tripping an attribute error in the lint loops. -/
def nullOrObj : JValue → Bool
  | .null => true
  | .obj _ => true
  | _ => false

/-- The key, when present, satisfies the shape predicate; absence is fine. -/
def fieldOk (fs : List (String × JValue)) (k : String) (p : JValue → Bool) : Bool :=
  match lookupStr k fs with
  | none => true
  | some v => p v

/-- Expected shape of a `responses` value: a mapping of null-or-mapping
entries. -/
def wsResponses : JValue → Bool
  | .obj rfs => rfs.all (fun p => nullOrObj p.2)
  | _ => false

/-- Expected shape of a method value: null, or an operation mapping whose
`responses` (when present) is well-shaped. -/
def wsOperation : JValue → Bool
  | .null => true
  | .obj ofs => fieldOk ofs "responses" wsResponses
  | _ => false

/-- Expected shape of a path item: null, or a mapping whose seven method
keys (the only ones the script reads) are well-shaped when present. -/
def wsPathItem : JValue → Bool
  | .null => true
  | .obj pf => methodList.all (fun m => fieldOk pf m wsOperation)
  | _ => false

/-- Expected shape of `paths`: a mapping of well-shaped path items. -/
def wsPaths : JValue → Bool
  | .obj pfs => pfs.all (fun p => wsPathItem p.2)
  | _ => false

/-- Expected shape of `components.schemas`: a mapping of null-or-mapping
schema entries. -/
def wsSchemas : JValue → Bool
  | .obj sfs => sfs.all (fun p => nullOrObj p.2)
  | _ => false

/-- Expected shape of `components`: a mapping whose `schemas` (when
present) is well-shaped. -/
def wsComponents : JValue → Bool
  | .obj cfs => fieldOk cfs "schemas" wsSchemas
  | _ => false

/-- A document whose examined values all have the shapes the script
expects: the root is a mapping, `openapi` (when present) is a string,
`info`, `paths` and `components` (when present) are mappings of the
expected shapes. Every key may be absent. -/
def wellShaped : JValue → Bool
  | .obj fs =>
    fieldOk fs "openapi" isStringVal &&
    fieldOk fs "info" isObjVal &&
    fieldOk fs "paths" wsPaths &&
    fieldOk fs "components" wsComponents
  | _ => false

/-- Document whose `get` operation is present as the empty mapping:
non-null but falsy in Python. -/
def c2doc : JValue := .obj [("paths", .obj [("/x", .obj [("get", .obj [])])])]

/-- A small well-shaped document: a string version and one null path item. -/
def c3doc : JValue :=
  .obj [("openapi", .str "3.0.0"), ("paths", .obj [("/a", .null)])]

/-- Warnings the script emits on `c2doc`. -/
def c2docWarnings : List String :=
  ["LINT: Missing 'openapi' version field",
   "LINT: Missing 'info' section",
   "LINT: No servers defined (recommended for clarity)"]

theorem lintVersion_ok_of_shape (fs : List (String × JValue))
    (h : fieldOk fs "openapi" isStringVal = true) :
    ∃ w, lintVersion (.obj fs) = .ok w := by
  unfold lintVersion
  simp only [pyGetD]
  cases hl : lookupStr "openapi" fs with
  | none => simp [hl, truthy]
  | some v =>
    have hv : isStringVal v = true := by unfold fieldOk at h; rw [hl] at h; exact h
    cases v with
    | str s =>
      simp only [hl, Option.getD_some]
      by_cases ht : truthy (.str s)
      · simp only [ht, Bool.not_true, Bool.false_eq_true, if_false, pyStartswith]
        split <;> exact ⟨_, rfl⟩
      · simp [ht]
    | null => simp [isStringVal] at hv
    | bool b => simp [isStringVal] at hv
    | num n => simp [isStringVal] at hv
    | arr es => simp [isStringVal] at hv
    | obj f2 => simp [isStringVal] at hv

theorem lintInfo_ok_of_shape (fs : List (String × JValue))
    (h : fieldOk fs "info" isObjVal = true) :
    ∃ w, lintInfo (.obj fs) = .ok w := by
  unfold lintInfo
  simp only [pyGetD]
  cases hl : lookupStr "info" fs with
  | none => simp [hl, truthy]
  | some v =>
    have hv : isObjVal v = true := by unfold fieldOk at h; rw [hl] at h; exact h
    cases v with
    | obj ifs =>
      simp only [hl, Option.getD_some]
      by_cases ht : truthy (.obj ifs)
      · simp only [ht, Bool.not_true, Bool.false_eq_true, if_false, pyGetD]
        exact ⟨_, rfl⟩
      · simp [ht]
    | null => simp [isObjVal] at hv
    | bool b => simp [isObjVal] at hv
    | num n => simp [isObjVal] at hv
    | str s => simp [isObjVal] at hv
    | arr es => simp [isObjVal] at hv

theorem responseWarnings_ok_of_shape (op_id : String) (rfs : List (String × JValue))
    (h : rfs.all (fun p => nullOrObj p.2) = true) :
    ∃ w, responseWarnings op_id rfs = .ok w := by
  induction rfs with
  | nil => exact ⟨[], rfl⟩
  | cons hd tl ih =>
    obtain ⟨code, response⟩ := hd
    simp only [List.all_cons, Bool.and_eq_true] at h
    obtain ⟨hv, htl⟩ := h
    obtain ⟨wtl, hwtl⟩ := ih htl
    unfold responseWarnings
    cases response with
    | null => simp [truthy, hwtl]
    | obj vfs =>
      by_cases ht : truthy (.obj vfs)
      · simp [ht, pyGetD, hwtl]
      · simp [ht, hwtl]
    | bool b => simp [nullOrObj] at hv
    | num n => simp [nullOrObj] at hv
    | str s => simp [nullOrObj] at hv
    | arr es => simp [nullOrObj] at hv

theorem lintResponses_ok_of_shape (op_id : String) (ofs : List (String × JValue))
    (h : fieldOk ofs "responses" wsResponses = true) :
    ∃ w, lintResponses op_id (.obj ofs) = .ok w := by
  unfold lintResponses
  simp only [pyGetD]
  cases hl : lookupStr "responses" ofs with
  | none => simp [hl, truthy]
  | some v =>
    have hv : wsResponses v = true := by unfold fieldOk at h; rw [hl] at h; exact h
    cases v with
    | obj rfs =>
      simp only [hl, Option.getD_some]
      by_cases ht : truthy (.obj rfs)
      · obtain ⟨w2, hw2⟩ :=
          responseWarnings_ok_of_shape op_id rfs (by simpa [wsResponses] using hv)
        simp [ht, hw2]
      · simp [ht]
    | null => simp [wsResponses] at hv
    | bool b => simp [wsResponses] at hv
    | num n => simp [wsResponses] at hv
    | str s => simp [wsResponses] at hv
    | arr es => simp [wsResponses] at hv

theorem lintOperation_ok_of_shape (op_id : String) (ofs : List (String × JValue))
    (h : fieldOk ofs "responses" wsResponses = true) :
    ∃ w, lintOperation op_id (.obj ofs) = .ok w := by
  unfold lintOperation
  simp only [pyGetD]
  obtain ⟨w3, hw3⟩ := lintResponses_ok_of_shape op_id ofs h
  simp [hw3]

theorem methodWarnings_ok_of_shape (path : String) (pf : List (String × JValue))
    (ms : List String) (h : ms.all (fun m => fieldOk pf m wsOperation) = true) :
    ∃ w, methodWarnings path (.obj pf) ms = .ok w := by
  induction ms with
  | nil => exact ⟨[], rfl⟩
  | cons m tl ih =>
    simp only [List.all_cons, Bool.and_eq_true] at h
    obtain ⟨hm, htl⟩ := h
    obtain ⟨wtl, hwtl⟩ := ih htl
    unfold methodWarnings
    simp only [pyGetD]
    cases hl : lookupStr m pf with
    | none => simp [hl, truthy, hwtl]
    | some op =>
      have hop : wsOperation op = true := by unfold fieldOk at hm; rw [hl] at hm; exact hm
      cases op with
      | null => simp [hl, truthy, hwtl]
      | obj ofs =>
        by_cases ht : truthy (.obj ofs)
        · obtain ⟨wop, hwop⟩ :=
            lintOperation_ok_of_shape (strUpper m ++ " " ++ path) ofs
              (by simpa [wsOperation] using hop)
          simp [hl, ht, hwop, hwtl]
        · simp [hl, ht, hwtl]
      | bool b => simp [wsOperation] at hop
      | num n => simp [wsOperation] at hop
      | str s => simp [wsOperation] at hop
      | arr es => simp [wsOperation] at hop

theorem pathWarnings_ok_of_shape (pfs : List (String × JValue))
    (h : pfs.all (fun p => wsPathItem p.2) = true) :
    ∃ w, pathWarnings pfs = .ok w := by
  induction pfs with
  | nil => exact ⟨[], rfl⟩
  | cons hd tl ih =>
    obtain ⟨path, path_item⟩ := hd
    simp only [List.all_cons, Bool.and_eq_true] at h
    obtain ⟨hv, htl⟩ := h
    obtain ⟨wtl, hwtl⟩ := ih htl
    unfold pathWarnings
    cases path_item with
    | null => simp [pathItemWarnings, hwtl]
    | obj pf =>
      obtain ⟨wm, hwm⟩ :=
        methodWarnings_ok_of_shape path pf methodList (by simpa [wsPathItem] using hv)
      simp [pathItemWarnings, hwm, hwtl]
    | bool b => simp [wsPathItem] at hv
    | num n => simp [wsPathItem] at hv
    | str s => simp [wsPathItem] at hv
    | arr es => simp [wsPathItem] at hv

theorem lintPaths_ok_of_shape (fs : List (String × JValue))
    (h : fieldOk fs "paths" wsPaths = true) :
    ∃ w, lintPaths (.obj fs) = .ok w := by
  unfold lintPaths
  simp only [pyGetD]
  cases hl : lookupStr "paths" fs with
  | none => simp [hl, truthy]
  | some v =>
    have hv : wsPaths v = true := by unfold fieldOk at h; rw [hl] at h; exact h
    cases v with
    | obj pfs =>
      simp only [hl, Option.getD_some]
      by_cases ht : truthy (.obj pfs)
      · obtain ⟨w, hw⟩ := pathWarnings_ok_of_shape pfs (by simpa [wsPaths] using hv)
        simp [ht, hw]
      · simp [ht]
    | null => simp [wsPaths] at hv
    | bool b => simp [wsPaths] at hv
    | num n => simp [wsPaths] at hv
    | str s => simp [wsPaths] at hv
    | arr es => simp [wsPaths] at hv

theorem schemaWarnings_ok_of_shape (sfs : List (String × JValue))
    (h : sfs.all (fun p => nullOrObj p.2) = true) :
    ∃ w, schemaWarnings sfs = .ok w := by
  induction sfs with
  | nil => exact ⟨[], rfl⟩
  | cons hd tl ih =>
    obtain ⟨schema_name, schema⟩ := hd
    simp only [List.all_cons, Bool.and_eq_true] at h
    obtain ⟨hv, htl⟩ := h
    obtain ⟨wtl, hwtl⟩ := ih htl
    unfold schemaWarnings
    cases schema with
    | null => simp [truthy, hwtl]
    | obj vfs =>
      by_cases ht : truthy (.obj vfs)
      · simp [ht, pyGetD, hwtl]
      · simp [ht, hwtl]
    | bool b => simp [nullOrObj] at hv
    | num n => simp [nullOrObj] at hv
    | str s => simp [nullOrObj] at hv
    | arr es => simp [nullOrObj] at hv

/-- Claim C3 (corrected): the Lint Engine returns an ordered warning
sequence, with no escaping exception, for every document whose examined
values have the shapes the code expects; absence of any key is a valid
state (the empty document is well-shaped). The original unrestricted
claim is refuted by `c3_counterexample`. -/
theorem c3_amended_total_on_wellshaped (spec : JValue) (h : wellShaped spec = true) :
    ∃ ws, lint_spec spec = .ok ws := by
  cases spec with
  | obj fs =>
    simp only [wellShaped, Bool.and_eq_true] at h
    obtain ⟨⟨⟨h1, h2⟩, h3⟩, h4⟩ := h
    obtain ⟨w1, hw1⟩ := lintVersion_ok_of_shape fs h1
    obtain ⟨w2, hw2⟩ := lintInfo_ok_of_shape fs h2
    obtain ⟨w3, hw3⟩ := lintPaths_ok_of_shape fs h3
    unfold lint_spec
    rw [hw1, hw2, hw3]
    simp only [pyGetD]
    cases hc : lookupStr "components" fs with
    | none => simp [hc, lookupStr, pyGetD, schemaWarnings]
    | some c =>
      have hcs : wsComponents c = true := by unfold fieldOk at h4; rw [hc] at h4; exact h4
      cases c with
      | obj cfs =>
        have hcf : fieldOk cfs "schemas" wsSchemas = true := by simpa [wsComponents] using hcs
        simp only [hc, Option.getD_some, pyGetD]
        cases hs : lookupStr "schemas" cfs with
        | none => simp [hs, pyGetD, schemaWarnings]
        | some s =>
          have hss : wsSchemas s = true := by unfold fieldOk at hcf; rw [hs] at hcf; exact hcf
          cases s with
          | obj sfs =>
            obtain ⟨w4, hw4⟩ :=
              schemaWarnings_ok_of_shape sfs (by simpa [wsSchemas] using hss)
            simp [hs, hw4, pyGetD]
          | null => simp [wsSchemas] at hss
          | bool b => simp [wsSchemas] at hss
          | num n => simp [wsSchemas] at hss
          | str s2 => simp [wsSchemas] at hss
          | arr es => simp [wsSchemas] at hss
      | null => simp [wsComponents] at hcs
      | bool b => simp [wsComponents] at hcs
      | num n => simp [wsComponents] at hcs
      | str s => simp [wsComponents] at hcs
      | arr es => simp [wsComponents] at hcs
  | null => simp [wellShaped] at h
  | bool b => simp [wellShaped] at h
  | num n => simp [wellShaped] at h
  | str s => simp [wellShaped] at h
  | arr es => simp [wellShaped] at h

/-- Claim C1 (corrected): in the response-description loop, every response
entry whose value is truthy (a non-empty mapping) and lacks a
`description` key yields a warning naming its status code; a non-null but
empty response mapping is skipped, so Scenario B's response `200` gets no
warning (see the counterexample). -/
theorem c1_amended_response_warning (op_id code : String)
    (rfls fields : List (String × JValue)) (ws : List String)
    (hmem : (code, JValue.obj rfls) ∈ fields)
    (hne : rfls ≠ [])
    (hnod : lookupStr "description" rfls = none)
    (hok : responseWarnings op_id fields = .ok ws) :
    ("LINT: " ++ op_id ++ " response '" ++ code ++ "' missing description") ∈ ws := by
  induction fields generalizing ws with
  | nil => cases hmem
  | cons hd tl ih =>
    rcases List.mem_cons.mp hmem with heq | hmemtl
    · subst heq
      unfold responseWarnings at hok
      have hemp : rfls.isEmpty = false := by
        cases rfls with
        | nil => exact absurd rfl hne
        | cons a l => rfl
      simp only [pyGetD, hnod, Option.getD_none, truthy, hemp, Bool.not_false,
        if_true] at hok
      split at hok
      · exact absurd hok (by simp)
      · rename_i rest' hrest
        simp only [Except.ok.injEq] at hok
        subst hok
        exact List.mem_append_left _ (List.mem_singleton.mpr rfl)
    · obtain ⟨k, v⟩ := hd
      unfold responseWarnings at hok
      split at hok
      · exact absurd hok (by simp)
      · rename_i here hhere
        split at hok
        · exact absurd hok (by simp)
        · rename_i rest' hrest
          simp only [Except.ok.injEq] at hok
          subst hok
          exact List.mem_append_right _ (ih rest' hmemtl hrest)

theorem lintOperation_missing_id_mem (op_id : String) (ofs : List (String × JValue))
    (ws : List String) (hid : lookupStr "operationId" ofs = none)
    (hok : lintOperation op_id (.obj ofs) = .ok ws) :
    ("LINT: " ++ op_id ++ " missing 'operationId'") ∈ ws := by
  unfold lintOperation at hok
  simp only [pyGetD, hid, Option.getD_none, truthy, Bool.not_false, if_true] at hok
  split at hok
  · exact absurd hok (by simp)
  · rename_i w3 hw3
    simp only [Except.ok.injEq] at hok
    subst hok
    exact List.mem_append_left _ (List.mem_append_left _ (List.mem_singleton.mpr rfl))

/-- Claim C2 (corrected): in the method loop a recognized method key whose
value is truthy (a non-empty mapping) is linted as an operation, so a
missing `operationId` yields the warning identified as METHOD path; the
method order is the fixed canonical list. A method present with a
non-null but falsy value (the empty mapping) is skipped, refuting the
original non-null phrasing (see the counterexample). -/
theorem c2_amended_truthy_operation (path method : String) (ms : List String)
    (pf opf : List (String × JValue)) (ws : List String)
    (hm : method ∈ ms)
    (hop : lookupStr method pf = some (.obj opf))
    (hne : opf ≠ [])
    (hid : lookupStr "operationId" opf = none)
    (hok : methodWarnings path (.obj pf) ms = .ok ws) :
    ("LINT: " ++ strUpper method ++ " " ++ path ++ " missing 'operationId'") ∈ ws ∧
    methodList = ["get", "post", "put", "patch", "delete", "head", "options"] := by
  refine ⟨?_, rfl⟩
  induction ms generalizing ws with
  | nil => cases hm
  | cons m tl ih =>
    unfold methodWarnings at hok
    rcases List.mem_cons.mp hm with heq | hmtl
    · subst heq
      have hemp : opf.isEmpty = false := by
        cases opf with
        | nil => exact absurd rfl hne
        | cons a l => rfl
      simp only [pyGetD, hop, Option.getD_some, truthy, hemp, Bool.not_false,
        if_true] at hok
      split at hok
      · exact absurd hok (by simp)
      · rename_i here hhere
        split at hok
        · exact absurd hok (by simp)
        · rename_i rest' hrest
          simp only [Except.ok.injEq] at hok
          subst hok
          exact List.mem_append_left _ (lintOperation_missing_id_mem _ opf here hid hhere)
    · simp only [pyGetD] at hok
      split at hok
      · exact absurd hok (by simp)
      · rename_i here hhere
        split at hok
        · exact absurd hok (by simp)
        · rename_i rest' hrest
          simp only [Except.ok.injEq] at hok
          subst hok
          exact List.mem_append_right _ (ih rest' hmtl hrest)

theorem runMain_valid_char (args : Args) (spec : JValue) (va : Bool) (oc : ValidateOutcome)
    (hlint : args.schema_only = true ∨ ∃ ws, lint_spec spec = .ok ws) :
    (runMain args (.ok spec) va oc).1.valid =
      (args.lint_only || decide (validate_schema va oc = [])) := by
  obtain ⟨f, lo, so⟩ := args
  cases lo with
  | true =>
    cases so with
    | true => simp [runMain]
    | false =>
      rcases hlint with hso | ⟨ws, hws⟩
      · exact absurd hso (by simp)
      · simp [runMain, hws]
  | false =>
    by_cases hse : validate_schema va oc = []
    · cases so with
      | true => simp [runMain, hse]
      | false =>
        rcases hlint with hso | ⟨ws, hws⟩
        · exact absurd hso (by simp)
        · simp [runMain, hse, hws]
    · cases so with
      | true => simp [runMain, hse]
      | false =>
        rcases hlint with hso | ⟨ws, hws⟩
        · exact absurd hso (by simp)
        · simp [runMain, hse, hws]

/-- Claim C6 (confirmed): for every run whose phases complete and reach the
final results record, `valid` is true iff the conformance phase was
skipped or produced zero error findings; the lint output never affects
`valid`; and when both `--lint-only` and `--schema-only` are given, both
phases are skipped and the report is valid with empty sequences. -/
theorem c6_valid_iff (args : Args) (spec : JValue) (va : Bool) (oc : ValidateOutcome)
    (hlint : args.schema_only = true ∨ ∃ ws, lint_spec spec = .ok ws) :
    ((runMain args (.ok spec) va oc).1.valid = true ↔
      (args.lint_only = true ∨ validate_schema va oc = [])) ∧
    (∀ spec2, (args.schema_only = true ∨ ∃ ws2, lint_spec spec2 = .ok ws2) →
      (runMain args (.ok spec2) va oc).1.valid = (runMain args (.ok spec) va oc).1.valid) ∧
    (args.lint_only = true → args.schema_only = true →
      runMain args (.ok spec) va oc =
        ({ file := args.spec_file
           valid := true
           schema_errors := []
           lint_warnings := [] }, 0)) := by
  refine ⟨?_, ?_, ?_⟩
  · rw [runMain_valid_char args spec va oc hlint]
    simp
  · intro spec2 hlint2
    rw [runMain_valid_char args spec va oc hlint, runMain_valid_char args spec2 va oc hlint2]
  · intro hlo hso
    obtain ⟨f, lo, so⟩ := args
    simp only at hlo hso
    subst hlo
    subst hso
    simp [runMain]

theorem c6_witness :
    ((Args.mk "spec.yaml" true true).schema_only = true ∨
      ∃ ws, lint_spec (.obj []) = .ok ws) ∧
    (((runMain (Args.mk "spec.yaml" true true) (.ok (.obj [])) true .ok).1.valid = true ↔
       ((Args.mk "spec.yaml" true true).lint_only = true ∨ validate_schema true .ok = [])) ∧
     (∀ spec2, ((Args.mk "spec.yaml" true true).schema_only = true ∨
         ∃ ws2, lint_spec spec2 = .ok ws2) →
       (runMain (Args.mk "spec.yaml" true true) (.ok spec2) true .ok).1.valid =
         (runMain (Args.mk "spec.yaml" true true) (.ok (.obj [])) true .ok).1.valid) ∧
     ((Args.mk "spec.yaml" true true).lint_only = true →
       (Args.mk "spec.yaml" true true).schema_only = true →
       runMain (Args.mk "spec.yaml" true true) (.ok (.obj [])) true .ok =
         ({ file := (Args.mk "spec.yaml" true true).spec_file
            valid := true
            schema_errors := []
            lint_warnings := [] }, 0))) :=
  ⟨Or.inl rfl, c6_valid_iff (Args.mk "spec.yaml" true true) (.obj []) true .ok (Or.inl rfl)⟩

/-- Claim C7 (confirmed): a missing file or any load failure short-circuits
both phases regardless of the requested mode flags: the report is invalid
with exactly one conformance-error entry describing the failure and an
empty lint-warnings sequence, and the exit code is 1. -/
theorem c7_short_circuit (args : Args) (va : Bool) (oc : ValidateOutcome) (msg : String) :
    runMain args (.error (.fileNotFound msg)) va oc =
      ({ file := args.spec_file
         valid := false
         schema_errors := [msg]
         lint_warnings := [] }, 1) ∧
    runMain args (.error (.importError msg)) va oc =
      ({ file := args.spec_file
         valid := false
         schema_errors := ["Failed to parse spec: " ++ msg]
         lint_warnings := [] }, 1) ∧
    runMain args (.error (.yamlError msg)) va oc =
      ({ file := args.spec_file
         valid := false
         schema_errors := ["Failed to parse spec: " ++ msg]
         lint_warnings := [] }, 1) ∧
    runMain args (.error (.jsonError msg)) va oc =
      ({ file := args.spec_file
         valid := false
         schema_errors := ["Failed to parse spec: " ++ msg]
         lint_warnings := [] }, 1) :=
  ⟨rfl, rfl, rfl, rfl⟩

/-- Claim C8 (confirmed): linting the empty mapping document produces, in
order, exactly the missing-version, missing-info, no-paths and no-servers
warnings; the schemas rule and the security rule contribute nothing. -/
theorem c8_empty_document :
    lint_spec (.obj []) =
      .ok ["LINT: Missing 'openapi' version field", "LINT: Missing 'info' section",
           "LINT: No paths defined", "LINT: No servers defined (recommended for clarity)"] := by
  decide

/-- Claim C9 (confirmed): the Lint Engine is a deterministic pure function
of the document: two runs on equal documents produce identical ordered
warning sequences. -/
theorem c9_deterministic (d1 d2 : JValue) (h : d1 = d2) :
    lint_spec d1 = lint_spec d2 ∧ lint_spec d1 = lint_spec d1 :=
  ⟨by rw [h], rfl⟩

theorem c9_witness :
    (JValue.obj [("info", .obj [("title", .str "t")])]) =
      (JValue.obj [("info", .obj [("title", .str "t")])]) ∧
    (lint_spec (JValue.obj [("info", .obj [("title", .str "t")])]) =
        lint_spec (JValue.obj [("info", .obj [("title", .str "t")])]) ∧
      lint_spec (JValue.obj [("info", .obj [("title", .str "t")])]) =
        lint_spec (JValue.obj [("info", .obj [("title", .str "t")])])) :=
  ⟨rfl, c9_deterministic (JValue.obj [("info", .obj [("title", .str "t")])])
    (JValue.obj [("info", .obj [("title", .str "t")])]) rfl⟩

/-- Claim C10 (confirmed): for an extension that is none of .yaml/.yml/
.json, an unavailable YAML capability makes the loader silently attempt
JSON only — a well-formed body loads, anything else surfaces the JSON
parse error — and the outcome is indistinguishable from a run where YAML
was available but failed to parse the content. -/
theorem c10_extension_fallback (fp suffix : String) (yr jr : Except String JValue)
    (e : String) (h1 : suffix ≠ ".yaml") (h2 : suffix ≠ ".yml") (h3 : suffix ≠ ".json") :
    load_spec fp suffix true false yr jr = load_spec fp suffix true true (.error e) jr ∧
    (∀ v, jr = .ok v → load_spec fp suffix true false yr jr = .ok v) ∧
    (∀ m, jr = .error m → load_spec fp suffix true false yr jr = .error (.jsonError m)) := by
  refine ⟨?_, ?_, ?_⟩
  · simp [load_spec, h1, h2, h3]
  · intro v hv
    subst hv
    simp [load_spec, h1, h2, h3]
  · intro m hm
    subst hm
    simp [load_spec, h1, h2, h3]

theorem c10_witness :
    ("" ≠ ".yaml" ∧ "" ≠ ".yml" ∧ "" ≠ ".json") ∧
    (load_spec "api" "" true false (.error "bad yaml") (.ok (.obj [])) =
        load_spec "api" "" true true (.error "boom") (.ok (.obj [])) ∧
      (∀ v, (Except.ok (JValue.obj []) : Except String JValue) = .ok v →
        load_spec "api" "" true false (.error "bad yaml") (.ok (.obj [])) = .ok v) ∧
      (∀ m, (Except.ok (JValue.obj []) : Except String JValue) = .error m →
        load_spec "api" "" true false (.error "bad yaml") (.ok (.obj [])) =
          .error (.jsonError m))) :=
  ⟨⟨by decide, by decide, by decide⟩,
    c10_extension_fallback "api" "" (.error "bad yaml") (.ok (.obj [])) "boom"
      (by decide) (by decide) (by decide)⟩

theorem c1_counterexample :
    lint_spec scenarioB = .ok scenarioBWarnings ∧
    ("LINT: GET /x response '200' missing description") ∉ scenarioBWarnings :=
  ⟨by decide, by decide⟩

theorem c1_amended_witness :
    ("LINT: GET /x response '200' missing description") ∈
      ["LINT: GET /x response '200' missing description"] :=
  c1_amended_response_warning "GET /x" "200" [("note", .str "v")]
    [("200", .obj [("note", .str "v")])]
    ["LINT: GET /x response '200' missing description"]
    (List.Mem.head _) (List.cons_ne_nil _ _) rfl rfl

theorem c2_counterexample :
    lint_spec c2doc = .ok c2docWarnings ∧
    ("LINT: GET /x missing 'operationId'") ∉ c2docWarnings :=
  ⟨by decide, by decide⟩

theorem c2_amended_witness :
    ("LINT: " ++ strUpper "get" ++ " " ++ "/x" ++ " missing 'operationId'") ∈
      ["LINT: GET /x missing 'operationId'", "LINT: GET /x has no responses defined"] ∧
    methodList = ["get", "post", "put", "patch", "delete", "head", "options"] :=
  c2_amended_truthy_operation "/x" "get" methodList
    [("get", .obj [("summary", .str "s")])] [("summary", .str "s")]
    ["LINT: GET /x missing 'operationId'", "LINT: GET /x has no responses defined"]
    (by decide) rfl (List.cons_ne_nil _ _) rfl rfl

theorem c3_counterexample :
    lint_spec (.obj [("components", .null)]) =
      .error "'NoneType' object has no attribute 'get'" := by
  decide

theorem c3_amended_witness :
    wellShaped c3doc = true ∧ ∃ ws, lint_spec c3doc = .ok ws :=
  ⟨by decide, c3_amended_total_on_wellshaped c3doc (by decide)⟩

theorem c4_counterexample :
    runMain (Args.mk "spec.yaml" false false) (.ok (.obj [])) false .ok =
      ({ file := "spec.yaml"
         valid := false
         schema_errors := ["ERROR: openapi-spec-validator not installed. Install with: pip install openapi-spec-validator"]
         lint_warnings := ["LINT: Missing 'openapi' version field", "LINT: Missing 'info' section",
           "LINT: No paths defined", "LINT: No servers defined (recommended for clarity)"] }, 1) := by
  decide

/-- Claim C4 (corrected): with the conformance capability unavailable the
check emits exactly one Error finding naming the missing package and how
to obtain it, but that finding lands in the conformance-error list, so
whenever the conformance phase runs the report is marked invalid: tool
absence is conflated with spec invalidity (see the counterexample). -/
theorem c4_amended_unavailable_invalid (args : Args) (spec : JValue) (oc : ValidateOutcome)
    (hlo : args.lint_only = false)
    (hlint : args.schema_only = true ∨ ∃ ws, lint_spec spec = .ok ws) :
    validate_schema false oc =
      ["ERROR: openapi-spec-validator not installed. Install with: pip install openapi-spec-validator"] ∧
    (runMain args (.ok spec) false oc).1.schema_errors =
      ["ERROR: openapi-spec-validator not installed. Install with: pip install openapi-spec-validator"] ∧
    (runMain args (.ok spec) false oc).1.valid = false := by
  refine ⟨rfl, ?_, ?_⟩
  · obtain ⟨f, lo, so⟩ := args
    simp only at hlo
    subst hlo
    cases so with
    | true => simp [runMain, validate_schema]
    | false =>
      rcases hlint with hso | ⟨ws, hws⟩
      · exact absurd hso (by simp)
      · simp [runMain, validate_schema, hws]
  · rw [runMain_valid_char args spec false oc hlint]
    simp [hlo, validate_schema]

theorem c4_amended_witness :
    ((Args.mk "petstore.json" false true).lint_only = false ∧
      ((Args.mk "petstore.json" false true).schema_only = true ∨
        ∃ ws, lint_spec (.obj []) = .ok ws)) ∧
    (validate_schema false .ok =
        ["ERROR: openapi-spec-validator not installed. Install with: pip install openapi-spec-validator"] ∧
      (runMain (Args.mk "petstore.json" false true) (.ok (.obj [])) false .ok).1.schema_errors =
        ["ERROR: openapi-spec-validator not installed. Install with: pip install openapi-spec-validator"] ∧
      (runMain (Args.mk "petstore.json" false true) (.ok (.obj [])) false .ok).1.valid = false) :=
  ⟨⟨rfl, Or.inl rfl⟩,
    c4_amended_unavailable_invalid (Args.mk "petstore.json" false true) (.obj []) .ok
      rfl (Or.inl rfl)⟩

theorem c5_counterexample : validate_schema true (.otherException " ") = [] := by decide

/-- Claim C5 (corrected): a structured conformance violation is recorded
as an Error finding wrapping its message with the SCHEMA ERROR tag, and
any other failure is surfaced with the ERROR tag and a stripped message —
unless the message strips to the empty string, in which case no finding
is recorded at all, so an empty or whitespace-only failure message is
silently suppressed (see the counterexample). -/
theorem c5_amended_normalization (msg : String) :
    validate_schema true (.validationError msg) = ["SCHEMA ERROR: " ++ msg] ∧
    validate_schema true (.otherException msg) =
      (if pyStrip msg = "" then [] else ["ERROR: " ++ pyStrip msg]) := by
  constructor
  · rfl
  · unfold validate_schema
    by_cases h : pyStrip msg = ""
    · simp [h]
    · simp [h]
